import Mathlib

/-!
Shallow embedding of the `puenktli` departure-board application
(`src/domain/models.py`, `src/application/service.py`,
`src/infrastructure/transport_client.py`, `src/infrastructure/config_service.py`),
together with theorems settling the specification claims about it.

Modelling conventions:
* timezone-aware datetimes are totally ordered instants, modelled as `Int`;
* Python floats in `Location` are modelled as `Rat` (no rounding is relevant
  to any claim);
* a raised-and-possibly-caught Python exception is modelled by `Except String`;
* external effects (the location provider, the transit HTTP lookup, JSON file
  contents, environment variables, `float(...)` and
  `datetime.fromisoformat(...)` parsing) enter the model as explicit arguments,
  so each embedded function is total and executable.
-/

namespace Puenktli

/-- `src/domain/models.py`: `Location(latitude, longitude, name=None)`. -/
structure Location where
  latitude : Rat
  longitude : Rat
  name : Option String := none
deriving DecidableEq, Repr

/-- `src/domain/models.py`: `Connection(destination, departure_time, line,
platform=None, delay=None)`; `departure_time` is a timezone-aware datetime,
modelled as an instant on an `Int` timeline. -/
structure Connection where
  destination : String
  departure_time : Int
  line : String
  platform : Option String := none
  delay : Option Int := none
deriving DecidableEq, Repr

/-- The mutable state of `ConnectionService` (`src/application/service.py`):
the `_buffer` list and the optional `current_location`. -/
structure BufferState where
  buffer : List Connection
  current_location : Option Location
deriving DecidableEq, Repr

/-- Python's `lst[:limit]` for an arbitrary integer `limit`: a nonnegative
limit keeps the first `limit` elements; a negative limit removes the last
`-limit` elements. -/
def pySlice (limit : Int) (l : List α) : List α :=
  if 0 ≤ limit then l.take limit.toNat
  else l.take (l.length - (-limit).toNat)

/-- The comparison passed (via `key=lambda x: x.departure_time`) to Python's
stable ascending sort in `get_displayable_connections`. -/
def depLe (a b : Connection) : Bool :=
  a.departure_time ≤ b.departure_time

/-- `ConnectionService.get_displayable_connections` (`service.py` lines
30–41): compute `now`, keep the buffered connections with
`departure_time > now`, sort them ascending by `departure_time` (stable
sort), and return the Python slice `[:limit]` of the result. `now` is the
aware local time at the moment of the call, passed explicitly. -/
def get_displayable_connections (s : BufferState) (now : Int) (limit : Int) :
    List Connection :=
  let valid := s.buffer.filter (fun c => now < c.departure_time)
  pySlice limit (valid.mergeSort depLe)

/-- `ConnectionService.update_buffer` (`service.py` lines 13–28).
The two awaited effects are passed as arguments: `provider` is the outcome of
`location_service.get_current_location()` and `lookup loc` the outcome of
`transport_repo.get_connections(loc, limit=20)`; `Except.error` models a
raised exception. The surrounding `try/except Exception` catches any raise
and leaves the state as mutated so far: in particular an assignment to
`current_location` made before a failing lookup is kept. -/
def update_buffer (s : BufferState) (provider : Except String Location)
    (lookup : Location → Except String (List Connection)) : BufferState :=
  match s.current_location with
  | none =>
    match provider with
    | .error _ => s
    | .ok loc =>
      match lookup loc with
      | .error _ => { s with current_location := some loc }
      | .ok cs => { buffer := cs, current_location := some loc }
  | some loc =>
    match lookup loc with
    | .error _ => s
    | .ok cs => { s with buffer := cs }

/-- `update_buffer` raised an exception: either the provider step raised
(only reached when `current_location` was unset), or the lookup step raised
at the location in effect for the fetch. -/
def update_buffer_fails (s : BufferState) (provider : Except String Location)
    (lookup : Location → Except String (List Connection)) : Prop :=
  (s.current_location = none ∧ ∃ e, provider = .error e) ∨
  (∃ loc e, lookup loc = .error e ∧
    ((s.current_location = none ∧ provider = .ok loc) ∨
      s.current_location = some loc))

/-! ### Concrete sample data used by witnesses and counterexamples -/

/-- Sample connection departing at instant 10. -/
def c10a : Connection := { destination := "A", departure_time := 10, line := "IR 15" }

/-- A second connection departing at the same instant 10. -/
def c10b : Connection := { destination := "B", departure_time := 10, line := "S 1" }

/-- Sample connection departing at instant 20. -/
def c20 : Connection := { destination := "C", departure_time := 20, line := "IC 8" }

/-- A buffer holding the three sample connections, location unresolved. -/
def exState : BufferState := { buffer := [c20, c10a, c10b], current_location := none }

/-! ### Helper lemmas about `pySlice` and `get_displayable_connections` -/

theorem pySlice_sublist (limit : Int) (l : List α) : (pySlice limit l).Sublist l := by
  unfold pySlice
  split <;> exact l.take_sublist _

theorem length_pySlice (limit : Int) (l : List α) :
    (pySlice limit l).length =
      if 0 ≤ limit then min limit.toNat l.length else l.length - (-limit).toNat := by
  unfold pySlice
  split
  · simp [List.length_take]
  · simp [List.length_take]

theorem pySlice_length_mono {limit : Int} {l₁ l₂ : List α}
    (h : l₂.length ≤ l₁.length) :
    (pySlice limit l₂).length ≤ (pySlice limit l₁).length := by
  rw [length_pySlice, length_pySlice]
  split
  · exact min_le_min (Nat.le_refl _) h
  · omega

theorem pySlice_of_length_le {limit : Int} {l : List α}
    (h : (l.length : Int) ≤ limit) : pySlice limit l = l := by
  unfold pySlice
  rw [if_pos (le_trans (Int.natCast_nonneg _) h)]
  exact List.take_of_length_le (by omega)

theorem length_filter_mono {p q : α → Bool} (h : ∀ a, p a = true → q a = true) :
    ∀ l : List α, (l.filter p).length ≤ (l.filter q).length
  | [] => Nat.le_refl _
  | a :: l => by
    simp only [List.filter]
    cases hp : p a
    · cases q a
      · exact length_filter_mono h l
      · exact Nat.le_trans (length_filter_mono h l) (Nat.le_succ _)
    · rw [h a hp]
      simpa using length_filter_mono h l

theorem mem_of_mem_get_displayable {s : BufferState} {now limit : Int} {c : Connection}
    (h : c ∈ get_displayable_connections s now limit) :
    c ∈ s.buffer ∧ now < c.departure_time := by
  unfold get_displayable_connections at h
  have h1 := (pySlice_sublist limit _).subset h
  rw [List.mem_mergeSort] at h1
  simpa using List.mem_filter.mp h1

theorem get_displayable_pairwise_le (s : BufferState) (now limit : Int) :
    (get_displayable_connections s now limit).Pairwise
      (fun a b => a.departure_time ≤ b.departure_time) := by
  unfold get_displayable_connections
  refine List.Pairwise.sublist (pySlice_sublist limit _) ?_
  have h := @List.sorted_mergeSort Connection depLe
    (fun a b c hab hbc => by simp only [depLe, decide_eq_true_eq] at *; omega)
    (fun a b => by simp only [depLe, Bool.or_eq_true, decide_eq_true_eq]; omega)
    (s.buffer.filter (fun c => now < c.departure_time))
  exact h.imp (fun hab => by simpa [depLe] using hab)

theorem length_get_displayable_le_buffer (s : BufferState) (now limit : Int) :
    (get_displayable_connections s now limit).length ≤ s.buffer.length := by
  unfold get_displayable_connections
  refine Nat.le_trans (List.Sublist.length_le (pySlice_sublist limit _)) ?_
  rw [List.length_mergeSort]
  exact List.length_filter_le _ _

/-! ### Claims C1 and C2 -/

/-- C1: `get_displayable_connections(limit)` never returns a connection whose
`departure_time` is ≤ the `now` computed at the moment of the call; every
returned connection departs strictly after `now`. -/
theorem C1_displayable_strictly_future (s : BufferState) (now limit : Int)
    (c : Connection) (h : c ∈ get_displayable_connections s now limit) :
    now < c.departure_time :=
  (mem_of_mem_get_displayable h).2

unseal List.merge List.mergeSort in
/-- Witness for C1 at a concrete buffer, call time and limit. -/
theorem C1_witness :
    c10a ∈ get_displayable_connections exState 0 6 ∧ (0 : Int) < c10a.departure_time :=
  ⟨by decide, C1_displayable_strictly_future exState 0 6 c10a (by decide)⟩

unseal List.merge List.mergeSort in
/-- C2 counterexample: with two buffered connections sharing departure time 10
and `limit = -1`, the returned list is not strictly ascending by
`departure_time`, and its length (2) exceeds the limit (−1). -/
theorem C2_counterexample :
    ¬ (get_displayable_connections exState 0 (-1)).Pairwise
        (fun a b => a.departure_time < b.departure_time) ∧
    ¬ (((get_displayable_connections exState 0 (-1)).length : Int) ≤ -1) := by
  constructor <;> decide

/-- C2 (amended): the returned sequence is sorted ascending (non-strictly —
ties between equal departure times are kept, stably) by `departure_time`, its
length never exceeds the buffer size, and whenever `limit ≥ 0` its length is
at most `limit`. -/
theorem C2_displayable_sorted_and_bounded (s : BufferState) (now limit : Int) :
    (get_displayable_connections s now limit).Pairwise
      (fun a b => a.departure_time ≤ b.departure_time) ∧
    (get_displayable_connections s now limit).length ≤ s.buffer.length ∧
    (0 ≤ limit → ((get_displayable_connections s now limit).length : Int) ≤ limit) := by
  refine ⟨get_displayable_pairwise_le s now limit,
    length_get_displayable_le_buffer s now limit, fun hlim => ?_⟩
  unfold get_displayable_connections
  rw [length_pySlice, if_pos hlim]
  omega

unseal List.merge List.mergeSort in
/-- Witness for C2 (amended) at a concrete buffer, call time and limit. -/
theorem C2_witness :
    (get_displayable_connections exState 0 2).Pairwise
      (fun a b => a.departure_time ≤ b.departure_time) ∧
    ((get_displayable_connections exState 0 2).length : Int) ≤ 2 :=
  ⟨(C2_displayable_sorted_and_bounded exState 0 2).1,
    (C2_displayable_sorted_and_bounded exState 0 2).2.2 (by decide)⟩

/-! ### Claims C3, C4 and C8 (`update_buffer`) -/

/-- A location used by the `update_buffer` scenarios. -/
def locA : Location := { latitude := 1, longitude := 2, name := some "A" }

/-- A pre-call state with one buffered connection and no resolved location. -/
def s0 : BufferState := { buffer := [c10a], current_location := none }

/-- A transit lookup that always raises. -/
def failLookup : Location → Except String (List Connection) :=
  fun _ => Except.error "boom"

/-- C3 counterexample: starting from an unset `current_location`, a successful
provider step followed by a failing lookup step is a failing `update_buffer`
call, yet the post-call state differs from the pre-call state — the freshly
resolved `current_location` is kept. -/
theorem C3_counterexample :
    update_buffer_fails s0 (Except.ok locA) failLookup ∧
    update_buffer s0 (Except.ok locA) failLookup ≠ s0 :=
  ⟨Or.inr ⟨locA, "boom", rfl, Or.inl ⟨rfl, rfl⟩⟩, by decide⟩

/-- C3 (amended): a failing `update_buffer` call leaves the connections buffer
exactly as it was; `current_location` is also unchanged, except that when it
was unset and the provider step succeeded before the lookup step failed, it
now holds the provider's location. -/
theorem C3_failed_update_preserves_buffer (s : BufferState)
    (provider : Except String Location)
    (lookup : Location → Except String (List Connection))
    (h : update_buffer_fails s provider lookup) :
    (update_buffer s provider lookup).buffer = s.buffer ∧
    ((update_buffer s provider lookup).current_location = s.current_location ∨
      (s.current_location = none ∧ ∃ l, provider = Except.ok l ∧
        (update_buffer s provider lookup).current_location = some l)) := by
  rcases h with ⟨hloc, e, hp⟩ | ⟨loc, e, hl, ⟨hloc, hp⟩ | hloc⟩
  · simp [update_buffer, hloc, hp]
  · refine ⟨by simp [update_buffer, hloc, hp, hl], Or.inr ⟨hloc, loc, hp, ?_⟩⟩
    simp [update_buffer, hloc, hp, hl]
  · simp [update_buffer, hloc, hl]

/-- Witness for C3 (amended) at the concrete failing scenario. -/
theorem C3_witness :
    (update_buffer s0 (Except.ok locA) failLookup).buffer = s0.buffer ∧
    ((update_buffer s0 (Except.ok locA) failLookup).current_location =
        s0.current_location ∨
      (s0.current_location = none ∧ ∃ l, (Except.ok locA : Except String Location) = Except.ok l ∧
        (update_buffer s0 (Except.ok locA) failLookup).current_location = some l)) :=
  C3_failed_update_preserves_buffer s0 (Except.ok locA) failLookup
    (Or.inr ⟨locA, "boom", rfl, Or.inl ⟨rfl, rfl⟩⟩)

/-- C4: whatever the provider and lookup do — including raising — a call to
`update_buffer` returns a plain state: its buffer is either the previous list
of connections or a list the lookup successfully produced, never a failure
value. -/
theorem C4_update_never_propagates (s : BufferState)
    (provider : Except String Location)
    (lookup : Location → Except String (List Connection)) :
    (update_buffer s provider lookup).buffer = s.buffer ∨
    ∃ l cs, lookup l = Except.ok cs ∧ (update_buffer s provider lookup).buffer = cs := by
  rcases hloc : s.current_location with _ | loc
  · rcases provider with e | loc
    · exact Or.inl (by simp [update_buffer, hloc])
    · rcases hl : lookup loc with e | cs
      · exact Or.inl (by simp [update_buffer, hloc, hl])
      · exact Or.inr ⟨loc, cs, hl, by simp [update_buffer, hloc, hl]⟩
  · rcases hl : lookup loc with e | cs
    · exact Or.inl (by simp [update_buffer, hloc, hl])
    · exact Or.inr ⟨loc, cs, hl, by simp [update_buffer, hloc, hl]⟩

/-- C8: once `current_location` is set, `update_buffer` no longer consults the
location provider — the result does not depend on the provider's outcome —
and `current_location` keeps its value. -/
theorem C8_location_set_once (s : BufferState) (l : Location)
    (provider provider' : Except String Location)
    (lookup : Location → Except String (List Connection))
    (h : s.current_location = some l) :
    update_buffer s provider lookup = update_buffer s provider' lookup ∧
    (update_buffer s provider lookup).current_location = some l := by
  unfold update_buffer
  rw [h]
  cases hl : lookup l <;> simp [hl, h]

/-- A state whose location is already resolved. -/
def s1 : BufferState := { buffer := [], current_location := some locA }

/-- Witness for C8: with the location already set, two calls differing only in
the provider outcome coincide, and the location is preserved. -/
theorem C8_witness :
    s1.current_location = some locA ∧
    update_buffer s1 (Except.error "down") failLookup =
      update_buffer s1 (Except.ok locA) failLookup ∧
    (update_buffer s1 (Except.error "down") failLookup).current_location = some locA :=
  ⟨rfl,
    (C8_location_set_once s1 locA (Except.error "down") (Except.ok locA) failLookup rfl).1,
    (C8_location_set_once s1 locA (Except.error "down") (Except.ok locA) failLookup rfl).2⟩

/-! ### Claims C9 and C10 (time monotonicity and limit semantics) -/

/-- A two-connection buffer used by the C9 scenario. -/
def s9 : BufferState := { buffer := [c10a, c20], current_location := none }

unseal List.merge List.mergeSort in
/-- C9 counterexample: with buffer `[dep 10, dep 20]` and `limit = 1`, the
call at `now = 15` returns the dep-20 connection, which the call at the
earlier `now = 5` did not return (it returned only the dep-10 one) — the
later result is not a subset of the earlier one. -/
theorem C9_counterexample :
    c20 ∈ get_displayable_connections s9 15 1 ∧
    c20 ∉ get_displayable_connections s9 5 1 := by
  constructor <;> decide

/-- C9 (amended): with the buffer unchanged, as `now` advances the number of
returned connections never grows; and when `limit` is at least the buffer
size (so the limit truncation cannot cut), the later result is a subset of
the earlier one. With truncation, the subset relation can fail (see the
counterexample) although the length still shrinks. -/
theorem C9_displayable_shrinks_over_time (s : BufferState) (now₁ now₂ limit : Int)
    (h : now₁ ≤ now₂) :
    (get_displayable_connections s now₂ limit).length ≤
      (get_displayable_connections s now₁ limit).length ∧
    ((s.buffer.length : Int) ≤ limit →
      ∀ c ∈ get_displayable_connections s now₂ limit,
        c ∈ get_displayable_connections s now₁ limit) := by
  constructor
  · unfold get_displayable_connections
    refine pySlice_length_mono ?_
    rw [List.length_mergeSort, List.length_mergeSort]
    refine length_filter_mono (fun c hc => ?_) s.buffer
    simp only [decide_eq_true_eq] at *
    omega
  · intro hlim c hc
    have hmem := mem_of_mem_get_displayable hc
    unfold get_displayable_connections
    have hlen : (((s.buffer.filter
        (fun c => now₁ < c.departure_time)).mergeSort depLe).length : Int) ≤ limit := by
      rw [List.length_mergeSort]
      have := List.length_filter_le (fun c => now₁ < c.departure_time) s.buffer
      omega
    rw [pySlice_of_length_le hlen, List.mem_mergeSort, List.mem_filter]
    refine ⟨hmem.1, by simp only [decide_eq_true_eq]; omega⟩

unseal List.merge List.mergeSort in
/-- Witness for C9 (amended) at the concrete buffer with `limit = 2`. -/
theorem C9_witness :
    (5 : Int) ≤ 15 ∧
    (get_displayable_connections s9 15 2).length ≤
      (get_displayable_connections s9 5 2).length ∧
    (c20 ∈ get_displayable_connections s9 15 2 →
      c20 ∈ get_displayable_connections s9 5 2) :=
  ⟨by decide, (C9_displayable_shrinks_over_time s9 5 15 2 (by decide)).1,
    fun hmem =>
      (C9_displayable_shrinks_over_time s9 5 15 2 (by decide)).2 (by decide) c20 hmem⟩

/-- C10: `get_displayable_connections` with `limit = 0` always returns the
empty list; with a negative `limit` it returns the filtered sorted sequence
with its last `|limit|` elements removed (Python slice semantics), which can
hold more than `limit` entries; the length-at-most-`limit` bound holds
whenever `limit ≥ 0`. -/
theorem C10_limit_slice_semantics :
    (∀ (s : BufferState) (now : Int), get_displayable_connections s now 0 = []) ∧
    (∀ (s : BufferState) (now limit : Int), limit < 0 →
      get_displayable_connections s now limit =
        ((s.buffer.filter (fun c => now < c.departure_time)).mergeSort
            depLe).rdrop (-limit).toNat) ∧
    (∀ (s : BufferState) (now limit : Int), 0 ≤ limit →
      ((get_displayable_connections s now limit).length : Int) ≤ limit) ∧
    (∃ (s : BufferState) (now limit : Int), limit < 0 ∧
      limit < ((get_displayable_connections s now limit).length : Int)) := by
  refine ⟨fun s now => ?_, fun s now limit hneg => ?_, fun s now limit hpos => ?_,
    ⟨exState, 0, -1, by decide, ?_⟩⟩
  · simp [get_displayable_connections, pySlice]
  · unfold get_displayable_connections pySlice
    rw [if_neg (by omega)]
    rfl
  · exact (C2_displayable_sorted_and_bounded s now limit).2.2 hpos
  · have h := Int.natCast_nonneg (get_displayable_connections exState 0 (-1)).length
    omega

/-- Witness for C10 at concrete buffers and limits. -/
theorem C10_witness :
    get_displayable_connections exState 0 0 = [] ∧
    get_displayable_connections exState 0 (-1) =
      ((exState.buffer.filter (fun c => (0 : Int) < c.departure_time)).mergeSort
          depLe).rdrop 1 ∧
    ((get_displayable_connections exState 0 2).length : Int) ≤ 2 :=
  ⟨C10_limit_slice_semantics.1 exState 0,
    C10_limit_slice_semantics.2.1 exState 0 (-1) (by decide),
    C10_limit_slice_semantics.2.2.1 exState 0 2 (by decide)⟩

/-! ### Configuration resolver (`src/infrastructure/config_service.py`) -/

/-- The external inputs of `ConfigurationService`: the two JSON config files
(`station.json` and `/boot/station.json`; outer `none` = file absent, inner
`none` = read/parse error, otherwise the parsed `lat`, `lon` and optional
`name` fields), the three environment variables, and Python's `float(...)`
string parser. -/
structure ConfigWorld where
  localFile : Option (Option (Rat × Rat × Option String))
  bootFile : Option (Option (Rat × Rat × Option String))
  envLat : Option String
  envLon : Option String
  envName : Option String
  parseFloat : String → Option Rat

/-- `FileConfigSource.load`: absent file or read/parse error abstains;
otherwise a `Location` is built from the parsed fields, the name defaulting
to `"My Station"`. -/
def FileConfigSource_load (content : Option (Option (Rat × Rat × Option String))) :
    Option Location :=
  match content with
  | none => none
  | some none => none
  | some (some (la, lo, nm)) =>
    some { latitude := la, longitude := lo, name := some (nm.getD "My Station") }

/-- `EnvironmentConfigSource.load`: abstains unless both `GLEIS_LAT` and
`GLEIS_LON` are set and truthy (non-empty) and both parse as floats; the name
comes from `GLEIS_NAME` with default `"Unknown"`. -/
def EnvironmentConfigSource_load (w : ConfigWorld) : Option Location :=
  match w.envLat, w.envLon with
  | some lat, some lon =>
    if lat = "" ∨ lon = "" then none
    else
      match w.parseFloat lat, w.parseFloat lon with
      | some la, some lo =>
        some { latitude := la, longitude := lo, name := some (w.envName.getD "Unknown") }
      | _, _ => none
  | _, _ => none

/-- `DefaultConfigSource`: the fixed fallback location (Bern). -/
def defaultLocation : Location :=
  { latitude := (46.9480 : Rat), longitude := (7.4474 : Rat),
    name := some "Bern (Fallback)" }

/-- `ConfigurationService._initialize_sources`: the sources in priority
order — local file, boot-partition file, environment variables, fallback. -/
def configSources : List (ConfigWorld → Option Location) :=
  [fun w => FileConfigSource_load w.localFile,
   fun w => FileConfigSource_load w.bootFile,
   EnvironmentConfigSource_load,
   fun _ => some defaultLocation]

/-- `ConfigurationService.load_location`: the first source that yields a
location wins; `none` models the unreachable `RuntimeError`. -/
def load_location (w : ConfigWorld) : Option Location :=
  configSources.findSome? (fun src => src w)

/-- C5: the resolver tries local file, boot file, environment, fallback in
that order and returns the first yielded location; with no files but both
coordinate variables set and numeric it returns the environment-built
location; with nothing set it returns the fixed fallback with its designated
name. -/
theorem C5_config_chain_order :
    (∀ w : ConfigWorld, load_location w =
      ((FileConfigSource_load w.localFile).or
        ((FileConfigSource_load w.bootFile).or
          ((EnvironmentConfigSource_load w).or (some defaultLocation))))) ∧
    (∀ (w : ConfigWorld) (lat lon : String) (la lo : Rat),
      w.localFile = none → w.bootFile = none →
      w.envLat = some lat → w.envLon = some lon →
      lat ≠ "" → lon ≠ "" →
      w.parseFloat lat = some la → w.parseFloat lon = some lo →
      load_location w =
        some { latitude := la, longitude := lo,
               name := some (w.envName.getD "Unknown") }) ∧
    (∀ w : ConfigWorld, w.localFile = none → w.bootFile = none →
      w.envLat = none → w.envLon = none →
      load_location w = some defaultLocation) ∧
    defaultLocation.name = some "Bern (Fallback)" := by
  refine ⟨fun w => ?_, fun w lat lon la lo h1 h2 h3 h4 h5 h6 h7 h8 => ?_,
    fun w h1 h2 h3 h4 => ?_, rfl⟩
  · unfold load_location configSources
    cases hA : FileConfigSource_load w.localFile <;>
      cases hB : FileConfigSource_load w.bootFile <;>
        cases hC : EnvironmentConfigSource_load w <;>
          simp [List.findSome?, hA, hB, hC, Option.or]
  · simp [load_location, configSources, List.findSome?, FileConfigSource_load,
      EnvironmentConfigSource_load, h1, h2, h3, h4, h5, h6, h7, h8]
  · simp [load_location, configSources, List.findSome?, FileConfigSource_load,
      EnvironmentConfigSource_load, h1, h2, h3, h4]

/-- A world where only the coordinate environment variables are set. -/
def envWorld : ConfigWorld :=
  { localFile := none, bootFile := none,
    envLat := some "47.0", envLon := some "8.5", envName := none,
    parseFloat := fun s =>
      if s = "47.0" then some 47 else if s = "8.5" then some (17 / 2) else none }

/-- A world where no configuration source has anything to offer. -/
def emptyWorld : ConfigWorld :=
  { localFile := none, bootFile := none,
    envLat := none, envLon := none, envName := none,
    parseFloat := fun _ => none }

/-- Witness for C5: with only environment variables set the resolver returns
the environment-built location; with nothing set it returns the fallback. -/
theorem C5_witness :
    load_location envWorld =
      some { latitude := 47, longitude := 17 / 2, name := some "Unknown" } ∧
    load_location emptyWorld = some defaultLocation :=
  ⟨C5_config_chain_order.2.1 envWorld "47.0" "8.5" 47 (17 / 2) rfl rfl rfl rfl
      (by decide) (by decide) rfl rfl,
    C5_config_chain_order.2.2.1 emptyWorld rfl rfl rfl rfl⟩

/-! ### Transit lookup (`src/infrastructure/transport_client.py`) -/

/-- The `stop` sub-dictionary of a stationboard entry; `departure = none`
models a missing `departure` key or a JSON `null`. -/
structure RawStop where
  departure : Option String
  platform : Option String := none
  delay : Option Int := none
deriving DecidableEq, Repr

/-- A raw stationboard entry; `stop = none` / `to = none` model missing keys
(`KeyError` territory), `category`/`number` are read with `.get` defaults. -/
structure RawEntry where
  stop : Option RawStop
  to_ : Option String
  category : Option String := none
  number : Option String := none
deriving DecidableEq, Repr

/-- `SwissTransportClient._build_line_name`: `f"{category} {number}".strip()`
with `''` defaults for the missing keys. -/
def _build_line_name (e : RawEntry) : String :=
  ((e.category.getD "") ++ " " ++ (e.number.getD "")).trim

/-- `SwissTransportClient._parse_single_entry`; `parseIso` models
`datetime.fromisoformat` (`none` = `ValueError`). A missing `stop` or `to`
key raises `KeyError`, a missing/null/empty departure string short-circuits,
and all of these are turned into `None` by the method's `except`. -/
def _parse_single_entry (parseIso : String → Option Int) (e : RawEntry) :
    Option Connection :=
  match e.stop with
  | none => none
  | some st =>
    match st.departure with
    | none => none
    | some depStr =>
      if depStr = "" then none
      else
        match parseIso depStr with
        | none => none
        | some t =>
          match e.to_ with
          | none => none
          | some dest =>
            some { destination := dest, departure_time := t,
                   line := _build_line_name e,
                   platform := st.platform, delay := st.delay }

/-- `SwissTransportClient._parse_stationboard_entries`: parse each entry,
keep the successful ones. -/
def _parse_stationboard_entries (parseIso : String → Option Int)
    (entries : List RawEntry) : List Connection :=
  entries.filterMap (_parse_single_entry parseIso)

/-- C6: a stationboard entry missing a required key, or whose departure
timestamp is absent or unparseable, parses to nothing; dropping such an entry
from a batch leaves the parse of the rest of the batch untouched. -/
theorem C6_malformed_entry_skipped :
    (∀ (parseIso : String → Option Int) (e : RawEntry),
      e.stop = none ∨ e.to_ = none → _parse_single_entry parseIso e = none) ∧
    (∀ (parseIso : String → Option Int) (e : RawEntry) (st : RawStop),
      e.stop = some st → (st.departure = none ∨ st.departure = some "") →
      _parse_single_entry parseIso e = none) ∧
    (∀ (parseIso : String → Option Int) (e : RawEntry) (st : RawStop) (d : String),
      e.stop = some st → st.departure = some d → parseIso d = none →
      _parse_single_entry parseIso e = none) ∧
    (∀ (parseIso : String → Option Int) (e : RawEntry) (l₁ l₂ : List RawEntry),
      _parse_single_entry parseIso e = none →
      _parse_stationboard_entries parseIso (l₁ ++ e :: l₂) =
        _parse_stationboard_entries parseIso (l₁ ++ l₂)) := by
  refine ⟨?_, ?_, ?_, ?_⟩
  · rintro pI e (h | h)
    · simp [_parse_single_entry, h]
    · unfold _parse_single_entry
      (repeat' split) <;> simp_all
  · rintro pI e st hs (h | h) <;> simp [_parse_single_entry, hs, h]
  · intro pI e st d hs hd hp
    unfold _parse_single_entry
    (repeat' split) <;> simp_all
  · intro pI e l₁ l₂ h
    simp [_parse_stationboard_entries, List.filterMap_append, List.filterMap_cons, h]

/-- A well-formed stationboard entry (line `"IR 15"`, departs at 10). -/
def goodEntry1 : RawEntry :=
  { stop := some { departure := some "T10" }, to_ := some "Bern",
    category := some "IR", number := some "15" }

/-- An entry whose departure timestamp is missing. -/
def badEntry : RawEntry :=
  { stop := some { departure := none }, to_ := some "Thun" }

/-- A second well-formed entry (departs at 20). -/
def goodEntry2 : RawEntry :=
  { stop := some { departure := some "T20" }, to_ := some "Chur",
    category := some "IC", number := some "8" }

/-- A concrete `datetime.fromisoformat` model for the sample timestamps. -/
def exParseIso : String → Option Int :=
  fun s => if s = "T10" then some 10 else if s = "T20" then some 20 else none

/-- Witness for C6: the entry without a departure timestamp parses to
nothing, and removing it from the batch does not change the batch's parse. -/
theorem C6_witness :
    _parse_single_entry exParseIso badEntry = none ∧
    _parse_stationboard_entries exParseIso [goodEntry1, badEntry, goodEntry2] =
      _parse_stationboard_entries exParseIso [goodEntry1, goodEntry2] :=
  ⟨C6_malformed_entry_skipped.2.1 exParseIso badEntry { departure := none } rfl
      (Or.inl rfl),
    C6_malformed_entry_skipped.2.2.2 exParseIso badEntry [goodEntry1] [goodEntry2]
      (C6_malformed_entry_skipped.2.1 exParseIso badEntry { departure := none } rfl
        (Or.inl rfl))⟩

/-- A nearby-stations result row; `id = none` models a missing id or JSON
`null` (an address without a stable station identifier). -/
structure RawStation where
  id : Option String
  name : Option String := none
deriving DecidableEq, Repr

/-- `SwissTransportClient._filter_valid_stations`: keep stations whose
`id` is truthy (present and non-empty). -/
def _filter_valid_stations (stations : List RawStation) : List RawStation :=
  stations.filter (fun st => st.id.getD "" ≠ "")

/-- `SwissTransportClient._find_nearest_station` (successful-response path):
the first station left after filtering, `none` when none remains. -/
def _find_nearest_station (stations : List RawStation) : Option RawStation :=
  match _filter_valid_stations stations with
  | [] => none
  | st :: _ => some st

/-- `SwissTransportClient.get_connections` (successful-response path): the
two HTTP responses are passed in as the station list and the stationboard
indexed by station id; no valid station yields the empty list. -/
def get_connections (stations : List RawStation) (board : String → List RawEntry)
    (parseIso : String → Option Int) : List Connection :=
  match _find_nearest_station stations with
  | none => []
  | some st => _parse_stationboard_entries parseIso (board (st.id.getD ""))

/-- The spec's example station without an identifier. -/
def stA : RawStation := { id := none, name := some "A" }

/-- The spec's example station with identifier `"8500010"`. -/
def stB : RawStation := { id := some "8500010", name := some "B" }

/-- C7: stations lacking an identifier are filtered out (the spec's example
resolves to the station with id `"8500010"`); every surviving station has a
non-empty identifier; and when no valid station remains, `get_connections`
returns the empty sequence instead of failing. -/
theorem C7_station_filtering :
    (_find_nearest_station [stA, stB] = some stB ∧ stB.id = some "8500010") ∧
    (∀ (stations : List RawStation) (st : RawStation),
      st ∈ _filter_valid_stations stations → ∃ i, st.id = some i ∧ i ≠ "") ∧
    (∀ (stations : List RawStation) (board : String → List RawEntry)
      (parseIso : String → Option Int),
      _filter_valid_stations stations = [] →
      get_connections stations board parseIso = []) := by
  refine ⟨by decide, fun stations st hmem => ?_, fun stations board parseIso h => ?_⟩
  · have h := (List.mem_filter.mp hmem).2
    rcases hid : st.id with _ | i
    · rw [hid] at h
      simp at h
    · rw [hid] at h
      simp only [Option.getD_some, ne_eq, decide_eq_true_eq] at h
      exact ⟨i, rfl, h⟩
  · unfold get_connections _find_nearest_station
    rw [h]

/-- A board with no entries, used by the C7 witness. -/
def emptyBoard : String → List RawEntry := fun _ => []

/-- Witness for C7: the surviving example station has a non-empty id, and a
station list with no valid station makes `get_connections` return `[]`. -/
theorem C7_witness :
    (∃ i, stB.id = some i ∧ i ≠ "") ∧
    get_connections [stA] emptyBoard exParseIso = [] :=
  ⟨C7_station_filtering.2.1 [stA, stB] stB (by decide),
    C7_station_filtering.2.2 [stA] emptyBoard exParseIso (by decide)⟩

end Puenktli
